import Mathlib

/-!
# Evidence generation and verification engine: a shallow embedding

This file embeds the evidence-related code of the repository
(`src/unnamed/part_009` — the submit-consent edge function,
`src/supabase/functions/upload-document/riskUtils.ts` — the
`EvidenceVerifier` service and the verify-evidence edge function,
`src/supabase/functions/get-evidence/index.ts` — the get-evidence edge
function, and the `evidence_records` table of the migration under
`src/.bolt/supabase_discarded_migrations/`) into Lean, and settles the
specification claims about it.

JavaScript runtime values that flow through the code are modelled by the
`Json` inductive below; JavaScript `undefined` (absent property) is
modelled as `Option.none` at access sites.  The four platform primitives
the code calls — `JSON.stringify` (with and without an array replacer),
`TextEncoder.encode` (UTF-8), `crypto.subtle.digest('SHA-256')` and the
`Date` parser — are modelled respectively by an executable serializer
following ECMA-404/ECMA-262, an executable UTF-8 encoder, an executable
FIPS 180-4 SHA-256, and an explicit function parameter (the `Date`
parser is locale/engine dependent only in what it accepts; theorems
constrain it pointwise).
-/

/-- A JavaScript/JSON value.  Object fields are kept in insertion order,
as JavaScript objects enumerate them.  A number is carried as its
`Number::toString` decimal rendering (the code never does arithmetic on
payload numbers; they are only serialized, tested for truthiness and
copied). -/
inductive Json where
  | null : Json
  | bool (b : Bool) : Json
  | num (render : String) : Json
  | str (s : String) : Json
  | arr (elems : List Json) : Json
  | obj (fields : List (String × Json)) : Json

instance : Inhabited Json := ⟨Json.null⟩

mutual

/-- Node count of a value; an executable bound on nesting depth, used
as fuel by the serializers below. -/
def Json.size : Json → Nat
  | .null => 1
  | .bool _ => 1
  | .num _ => 1
  | .str _ => 1
  | .arr l => 1 + jsonSizeList l
  | .obj fs => 1 + jsonSizeFields fs

/-- Node count of a list of values. -/
def jsonSizeList : List Json → Nat
  | [] => 0
  | j :: js => Json.size j + jsonSizeList js

/-- Node count of an object's field list. -/
def jsonSizeFields : List (String × Json) → Nat
  | [] => 0
  | kv :: fs => Json.size kv.2 + jsonSizeFields fs

end

/-- JavaScript truthiness of a defined value.  The falsy values are
`null`, `false`, `±0`, `NaN` and the empty string; every object and
array is truthy.  `(0).toString()` and `(-0).toString()` are both `"0"`
and `(NaN).toString()` is `"NaN"`, so on the rendering these are the two
falsy number cases. -/
def Json.truthy : Json → Bool
  | .null => false
  | .bool b => b
  | .num r => !(r == "0" || r == "NaN")
  | .str s => !(s == "")
  | .arr _ => true
  | .obj _ => true

/-- Truthiness of a possibly-undefined value (`undefined` is falsy). -/
def optTruthy : Option Json → Bool
  | none => false
  | some j => j.truthy

/-- First binding of a key in an object's field list (JavaScript objects
hold at most one binding per key). -/
def lookupField : List (String × Json) → String → Option Json
  | [], _ => none
  | (k, v) :: fs, key => if k == key then some v else lookupField fs key

/-- Property access `j[key]`: a field of an object, `undefined` (`none`)
on a missing field or a non-object (the code only accesses properties of
values it has checked to be defined, or through `?.`). -/
def Json.get : Json → String → Option Json
  | .obj fs, key => lookupField fs key
  | _, _ => none

/-- Optional-chained access `base?.key`. -/
def jget (base : Option Json) (key : String) : Option Json :=
  match base with
  | none => none
  | some j => j.get key

/-- The own enumerable keys of a value, in insertion order
(`Object.keys`). -/
def Json.keys : Json → List String
  | .obj fs => fs.map (fun kv => kv.1)
  | _ => []

/-- Length in UTF-16 code units of one character: astral code points
take a surrogate pair. -/
def utf16UnitLen (c : Char) : Nat :=
  if c.toNat < 65536 then 1 else 2

/-- JavaScript `String.prototype.length`: the number of UTF-16 code
units. -/
def utf16Len (s : String) : Nat :=
  (s.data.map utf16UnitLen).sum

/-- JavaScript `.length` as the code reads it off a value: defined for
strings (UTF-16 units) and arrays (element count), `undefined`
otherwise. -/
def jsLength : Json → Option Nat
  | .str s => some (utf16Len s)
  | .arr l => some l.length
  | _ => none

/-- `needle` occurs at the start of `hay`. -/
def listStartsWith : List Char → List Char → Bool
  | [], _ => true
  | _ :: _, [] => false
  | a :: as, b :: bs => a == b && listStartsWith as bs

/-- `pat` occurs somewhere in `hay` (JavaScript
`String.prototype.includes`). -/
def listContainsSub (pat : List Char) : List Char → Bool
  | [] => listStartsWith pat []
  | c :: rest => listStartsWith pat (c :: rest) || listContainsSub pat rest

/-- Substring containment on strings. -/
def strContains (hay pat : String) : Bool :=
  listContainsSub pat.data hay.data

/-- Code-unit comparison of character lists, the order JavaScript's
default `Array.prototype.sort` comparator induces on (BMP) strings. -/
def charListLe : List Char → List Char → Bool
  | [], _ => true
  | _ :: _, [] => false
  | a :: as, b :: bs =>
      if a.toNat < b.toNat then true
      else if b.toNat < a.toNat then false
      else charListLe as bs

/-- String comparison used by `Array.prototype.sort()` on string
arrays. -/
def strLe (a b : String) : Bool := charListLe a.data b.data

/-- Insert into a `strLe`-sorted list. -/
def insertSorted (a : String) : List String → List String
  | [] => [a]
  | b :: bs => if strLe a b then a :: b :: bs else b :: insertSorted a bs

/-- Sort a list of strings as `Array.prototype.sort()` does (the result
agrees with the engine's sort on lists of distinct keys). -/
def sortStrings : List String → List String
  | [] => []
  | a :: as => insertSorted a (sortStrings as)

/-- Lowercase hexadecimal digit. -/
def hexDigit (n : Nat) : Char :=
  "0123456789abcdef".data.getD n '0'

/-- The two lowercase hex digits of a byte, as produced by
`b.toString(16).padStart(2, '0')` for `b < 256`. -/
def byteHexPair (b : Nat) : List Char :=
  [hexDigit (b / 16), hexDigit (b % 16)]

/-- Lowercase hex rendering of a byte list, as produced by
`bytes.map(b => b.toString(16).padStart(2, '0')).join('')`. -/
def bytesToHex (bs : List Nat) : String :=
  String.mk ((bs.map byteHexPair).flatten)

/-- UTF-8 bytes of one character (Unicode scalar value). -/
def utf8Bytes (c : Char) : List Nat :=
  let n := c.toNat
  if n < 128 then [n]
  else if n < 2048 then [192 ||| (n >>> 6), 128 ||| (n &&& 63)]
  else if n < 65536 then
    [224 ||| (n >>> 12), 128 ||| ((n >>> 6) &&& 63), 128 ||| (n &&& 63)]
  else
    [240 ||| (n >>> 18), 128 ||| ((n >>> 12) &&& 63),
     128 ||| ((n >>> 6) &&& 63), 128 ||| (n &&& 63)]

/-- UTF-8 encoding of a string (`new TextEncoder().encode(s)`). -/
def strUtf8 (s : String) : List Nat :=
  (s.data.map utf8Bytes).flatten

/-! ## SHA-256 (FIPS 180-4), the model of `crypto.subtle.digest('SHA-256')` -/

/-- The SHA-256 word modulus `2^32`. -/
def w32 : Nat := 4294967296

/-- Right rotation of a 32-bit word. -/
def rotr (n x : Nat) : Nat := ((x >>> n) ||| (x <<< (32 - n))) % w32

/-- SHA-256 Σ₀. -/
def bsig0 (x : Nat) : Nat := rotr 2 x ^^^ rotr 13 x ^^^ rotr 22 x

/-- SHA-256 Σ₁. -/
def bsig1 (x : Nat) : Nat := rotr 6 x ^^^ rotr 11 x ^^^ rotr 25 x

/-- SHA-256 σ₀. -/
def ssig0 (x : Nat) : Nat := rotr 7 x ^^^ rotr 18 x ^^^ (x >>> 3)

/-- SHA-256 σ₁. -/
def ssig1 (x : Nat) : Nat := rotr 17 x ^^^ rotr 19 x ^^^ (x >>> 10)

/-- SHA-256 Ch; the complement is taken inside 32 bits. -/
def chF (x y z : Nat) : Nat := (x &&& y) ^^^ ((x ^^^ 4294967295) &&& z)

/-- SHA-256 Maj. -/
def majF (x y z : Nat) : Nat := (x &&& y) ^^^ (x &&& z) ^^^ (y &&& z)

/-- The 64 SHA-256 round constants. -/
def sha256K : List Nat :=
  [1116352408, 1899447441, 3049323471, 3921009573, 961987163, 1508970993,
   2453635748, 2870763221, 3624381080, 310598401, 607225278, 1426881987,
   1925078388, 2162078206, 2614888103, 3248222580, 3835390401, 4022224774,
   264347078, 604807628, 770255983, 1249150122, 1555081692, 1996064986,
   2554220882, 2821834349, 2952996808, 3210313671, 3336571891, 3584528711,
   113926993, 338241895, 666307205, 773529912, 1294757372, 1396182291,
   1695183700, 1986661051, 2177026350, 2456956037, 2730485921, 2820302411,
   3259730800, 3345764771, 3516065817, 3600352804, 4094571909, 275423344,
   430227734, 506948616, 659060556, 883997877, 958139571, 1322822218,
   1537002063, 1747873779, 1955562222, 2024104815, 2227730452, 2361852424,
   2428436474, 2756734187, 3204031479, 3329325298]

/-- The eight-word SHA-256 chaining state. -/
structure Hash8 where
  a : Nat
  b : Nat
  c : Nat
  d : Nat
  e : Nat
  f : Nat
  g : Nat
  h : Nat

/-- The SHA-256 initial hash value. -/
def sha256Init : Hash8 :=
  ⟨1779033703, 3144134277, 1013904242, 2773480762,
   1359893119, 2600822924, 528734635, 1541459225⟩

/-- One SHA-256 round, fed the pair (round constant, schedule word). -/
def roundStep (st : Hash8) (kw : Nat × Nat) : Hash8 :=
  let t1 := (st.h + bsig1 st.e + chF st.e st.f st.g + kw.1 + kw.2) % w32
  let t2 := (bsig0 st.a + majF st.a st.b st.c) % w32
  ⟨(t1 + t2) % w32, st.a, st.b, st.c, (st.d + t1) % w32, st.e, st.f, st.g⟩

/-- Split a list into consecutive chunks of `n` elements; the fuel is
the length of the remaining list, which strictly drops on every step for
`n ≥ 1`. -/
def chunksAux : Nat → Nat → List Nat → List (List Nat)
  | 0, _, _ => []
  | _, _, [] => []
  | fuel + 1, n, x :: xs => (x :: xs).take n :: chunksAux fuel n ((x :: xs).drop n)

/-- Split a list into consecutive chunks of `n` elements (`n ≥ 1`). -/
def chunks (n : Nat) (l : List Nat) : List (List Nat) := chunksAux l.length n l

/-- A big-endian word from its bytes. -/
def bytesToWordBE (bs : List Nat) : Nat := bs.foldl (fun acc b => acc * 256 + b) 0

/-- Extend the 16 message words to the 64-entry message schedule. -/
def msgSchedule (ws : List Nat) : List Nat :=
  (List.range 48).foldl (fun w _ =>
    let t := w.length
    w ++ [(ssig1 (w.getD (t - 2) 0) + w.getD (t - 7) 0 +
           ssig0 (w.getD (t - 15) 0) + w.getD (t - 16) 0) % w32]) ws

/-- Compress one 64-byte block into the chaining state. -/
def compressBlock (h0 : Hash8) (block : List Nat) : Hash8 :=
  let ws := msgSchedule ((chunks 4 block).map bytesToWordBE)
  let st := (sha256K.zip ws).foldl roundStep h0
  ⟨(h0.a + st.a) % w32, (h0.b + st.b) % w32, (h0.c + st.c) % w32,
   (h0.d + st.d) % w32, (h0.e + st.e) % w32, (h0.f + st.f) % w32,
   (h0.g + st.g) % w32, (h0.h + st.h) % w32⟩

/-- Merkle–Damgård padding: a `0x80` byte, zeros to 56 mod 64, and the
bit length as eight big-endian bytes. -/
def padMessage (msg : List Nat) : List Nat :=
  let l := msg.length
  let k := (119 - (l % 64)) % 64
  let bitLen := 8 * l
  msg ++ [128] ++ List.replicate k 0 ++
    [(bitLen >>> 56) &&& 255, (bitLen >>> 48) &&& 255,
     (bitLen >>> 40) &&& 255, (bitLen >>> 32) &&& 255,
     (bitLen >>> 24) &&& 255, (bitLen >>> 16) &&& 255,
     (bitLen >>> 8) &&& 255, bitLen &&& 255]

/-- The four big-endian bytes of a 32-bit word. -/
def wordBytesBE (x : Nat) : List Nat :=
  [(x >>> 24) &&& 255, (x >>> 16) &&& 255, (x >>> 8) &&& 255, x &&& 255]

/-- SHA-256 of a byte list, as the 32 digest bytes. -/
def sha256 (msg : List Nat) : List Nat :=
  let hf := (chunks 64 (padMessage msg)).foldl compressBlock sha256Init
  wordBytesBE hf.a ++ wordBytesBE hf.b ++ wordBytesBE hf.c ++ wordBytesBE hf.d ++
  wordBytesBE hf.e ++ wordBytesBE hf.f ++ wordBytesBE hf.g ++ wordBytesBE hf.h

namespace CryptoService

/-- `CryptoService.hashSHA256` (src/unnamed/part_009:60-66): UTF-8
encode the string, SHA-256 it, and render the digest bytes as lowercase
hex. -/
def hashSHA256 (data : String) : String := bytesToHex (sha256 (strUtf8 data))

end CryptoService

/-- The computation of `evidenceData.document.hash`
(src/unnamed/part_009:223): the SHA-256 hex digest of the concatenation
of the document's storage path and its creation timestamp. -/
def documentHash (storagePath createdAt : String) : String :=
  CryptoService.hashSHA256 (storagePath ++ createdAt)

/-! ## `JSON.stringify` (ECMA-262 § 25.5.2), plain and with an array replacer

The serializers recurse through nested values; Lean's structural
recursion does not reach through `List`, so they take explicit fuel and
the wrappers hand them `sizeOf` of the value, which bounds the nesting
depth.  The fuel-zero branch is unreachable from the wrappers. -/

/-- JSON string escaping (`QuoteJSONString`): `"` and `\` get a
backslash, the five named control characters their short escapes, other
control characters a `\u00XX` escape. -/
def escChar (c : Char) : List Char :=
  if c = '"' then ['\\', '"']
  else if c = '\\' then ['\\', '\\']
  else if c = '\x08' then ['\\', 'b']
  else if c = '\x09' then ['\\', 't']
  else if c = '\x0a' then ['\\', 'n']
  else if c = '\x0c' then ['\\', 'f']
  else if c = '\x0d' then ['\\', 'r']
  else if c.toNat < 32 then
    ['\\', 'u', '0', '0', hexDigit (c.toNat / 16), hexDigit (c.toNat % 16)]
  else [c]

/-- A JSON-quoted string literal. -/
def quoteStr (s : String) : String :=
  String.mk ('"' :: (s.data.map escChar).flatten ++ ['"'])

/-- Comma-join. -/
def joinComma : List String → String
  | [] => ""
  | [s] => s
  | s :: rest => s ++ "," ++ joinComma rest

/-- `JSON.stringify(v)` with no replacer and no spacing: object fields
in insertion order, every field included. -/
def stringifyF : Nat → Json → String
  | 0, _ => ""
  | fuel + 1, j =>
    match j with
    | .null => "null"
    | .bool b => if b then "true" else "false"
    | .num r => r
    | .str s => quoteStr s
    | .arr l => "[" ++ joinComma (l.map (stringifyF fuel)) ++ "]"
    | .obj fs =>
        "\x7b" ++
        joinComma (fs.map (fun kv => quoteStr kv.1 ++ ":" ++ stringifyF fuel kv.2)) ++
        "\x7d"

/-- `JSON.stringify(v)`. -/
def Json.stringify (j : Json) : String := stringifyF j.size j

/-- `JSON.stringify(v, propertyList)` with an array replacer
(ECMA-262 `SerializeJSONObject` with a *PropertyList*): every object at
every depth — the root included — serializes exactly the keys that occur
in the property list, in the property list's order, skipping listed keys
the object does not have; keys not in the list are dropped.  Arrays keep
all their elements. -/
def stringifyWithListF : Nat → List String → Json → String
  | 0, _, _ => ""
  | fuel + 1, props, j =>
    match j with
    | .null => "null"
    | .bool b => if b then "true" else "false"
    | .num r => r
    | .str s => quoteStr s
    | .arr l => "[" ++ joinComma (l.map (stringifyWithListF fuel props)) ++ "]"
    | .obj fs =>
        "\x7b" ++
        joinComma (props.filterMap (fun k =>
          match lookupField fs k with
          | some v => some (quoteStr k ++ ":" ++ stringifyWithListF fuel props v)
          | none => none)) ++
        "\x7d"

/-- `JSON.stringify(v, propertyList)`. -/
def stringifyWithList (props : List String) (j : Json) : String :=
  stringifyWithListF j.size props j

/-- String conversion as `atob` applies it to a non-string argument
(only the string case is exercised by the repository's callers). -/
def jsToStringF : Nat → Json → String
  | 0, _ => ""
  | fuel + 1, j =>
    match j with
    | .null => "null"
    | .bool b => if b then "true" else "false"
    | .num r => r
    | .str s => s
    | .arr l => joinComma (l.map (jsToStringF fuel))
    | .obj _ => "[object Object]"

/-- JavaScript `ToString`. -/
def jsToString (j : Json) : String := jsToStringF j.size j

/-- A base64 alphabet character. -/
def isBase64Char (c : Char) : Bool :=
  ('A' ≤ c && c ≤ 'Z') || ('a' ≤ c && c ≤ 'z') || ('0' ≤ c && c ≤ '9') ||
  c == '+' || c == '/'

/-- ASCII whitespace, which `atob` strips. -/
def isAsciiWs (c : Char) : Bool :=
  c == ' ' || c == '\x09' || c == '\x0a' || c == '\x0c' || c == '\x0d'

/-- Whether `atob(s)` succeeds (the WHATWG forgiving-base64 decode):
strip ASCII whitespace, allow one or two trailing `=` when the length is
a multiple of four, fail on a remaining length of 1 mod 4 or any
character outside the alphabet. -/
def atobOk (s : String) : Bool :=
  let d := s.data.filter (fun c => !(isAsciiWs c))
  let d :=
    if d.length % 4 == 0 then
      if d.reverse.take 2 == ['=', '='] then d.take (d.length - 2)
      else if d.reverse.take 1 == ['='] then d.take (d.length - 1)
      else d
    else d
  d.length % 4 != 1 && d.all isBase64Char

/-! ## `EvidenceVerifier` (src/supabase/functions/upload-document/riskUtils.ts) -/

/-- The JavaScript `a || b` defaulting idiom on a possibly-undefined
value. -/
def jsOr (a : Option Json) (b : Json) : Json :=
  match a with
  | some v => if v.truthy then v else b
  | none => b

/-- Separator join (`Array.prototype.join`). -/
def joinSep (sep : String) : List String → String
  | [] => ""
  | [s] => s
  | s :: rest => s ++ sep ++ joinSep sep rest

namespace EvidenceVerifier

/-- The field list `verifySignature` requires (riskUtils.ts:28). -/
def requiredFields : List String :=
  ["evidence_id", "timestamp", "document", "analysis", "consent", "security"]

/-- The boolean `verifySignature` (riskUtils.ts:18-46) *resolves to*:
`false` when the signature is falsy, shorter than 64 UTF-16 units (a
`.length` of `undefined` compares `false` against `64`, so only a
defined short length rejects), when a required evidence field is falsy,
or when `atob` rejects the signature; `true` otherwise.  No public key
is ever used: the MVP comment in the source says real verification is
left for production.  Note `verifySignature` is `async`; its caller
never awaits it, so this boolean is computed but never observed. -/
def verifySignatureResolved (evidenceJson : Json) (signature : Json) : Bool :=
  if !signature.truthy ||
     (match jsLength signature with
      | some n => decide (n < 64)
      | none => false) then
    false
  else if requiredFields.any (fun f => !(optTruthy (evidenceJson.get f))) then
    false
  else
    atobOk (jsToString signature)

/-- The result of `detectTampering`. -/
structure TamperCheck where
  tampered : Bool
  issues : List String

/-- `detectTampering` (riskUtils.ts:48-86).  `parseDate` stands for the
engine's `new Date(x).getTime()` on the property value (`none` both for
an unparseable argument — `NaN` — and when the property is absent,
since `new Date(undefined)` is an invalid date); `now` is the clock at
verification time. -/
def detectTampering (parseDate : Option Json → Option Int) (now : Int)
    (evidenceJson : Json) : TamperCheck :=
  let i1 : List String :=
    match parseDate (evidenceJson.get "timestamp") with
    | none => ["Invalid or future timestamp"]
    | some t => if now < t then ["Invalid or future timestamp"] else []
  let consent := evidenceJson.get "consent"
  let i2 : List String :=
    if optTruthy (jget consent "phone_number") then []
    else ["Missing phone number in consent"]
  let i3 : List String :=
    if optTruthy (jget consent "fingerprint_hash") then []
    else ["Missing fingerprint hash"]
  let docHash := jget (evidenceJson.get "document") "hash"
  let i4 : List String :=
    if !(optTruthy docHash) ||
       (match docHash with
        | some v =>
          (match jsLength v with
           | some n => decide (n ≠ 64)
           | none => true)
        | none => true) then
      ["Invalid document hash format"]
    else []
  let i5 : List String :=
    if optTruthy (jget (evidenceJson.get "security") "signature") then []
    else ["Missing digital signature"]
  let serialized := evidenceJson.stringify
  let i6 : List String :=
    if strContains serialized "MODIFIED" || strContains serialized "TAMPERED" then
      ["Evidence contains modification markers"]
    else []
  let issues := i1 ++ i2 ++ i3 ++ i4 ++ i5 ++ i6
  { tampered := decide (0 < issues.length), issues := issues }

/-- `generateVerificationReport` (riskUtils.ts:88-122) binds
`const signatureValid = this.verifySignature(evidenceJson, signature)`
without `await`.  `verifySignature` is `async`, so the bound value is a
`Promise` object — an object is truthy — in both expressions that read
`signatureValid`.  This constant records that truthiness; the boolean
the promise resolves to is `verifySignatureResolved`, which nothing
awaits. -/
def unawaitedSignatureValidTruthy : Bool := true

/-- The report object `generateVerificationReport` builds, field for
field (the `verification_timestamp` is the wall-clock `toISOString`,
passed in as `nowIso`). -/
structure VerificationReport where
  verification_timestamp : String
  signature_valid_truthy : Bool
  signature_algorithm : Json
  tampered : Bool
  issues : List String
  integrity_score : String
  evidence_id_field : Json
  document_hash_field : Json
  consent_verified : Bool
  fingerprint_present : Bool
  voice_present : Bool
  location_present : Bool
  ethereum_anchored : Bool
  ipfs_anchored : Bool
  anchor_timestamp : Option Json
  overall_status : String
  confidence_score : Nat

/-- `generateVerificationReport` (riskUtils.ts:88-122). -/
def generateVerificationReport (parseDate : Option Json → Option Int)
    (now : Int) (nowIso : String) (evidenceJson : Json) (signature : Json) :
    VerificationReport :=
  let _resolved := verifySignatureResolved evidenceJson signature
  let signatureValid := unawaitedSignatureValidTruthy
  let tampering := detectTampering parseDate now evidenceJson
  { verification_timestamp := nowIso
    signature_valid_truthy := signatureValid
    signature_algorithm :=
      jsOr (jget (evidenceJson.get "security") "algorithm") (.str "Unknown")
    tampered := tampering.tampered
    issues := tampering.issues
    integrity_score := if tampering.tampered then "FAIL" else "PASS"
    evidence_id_field := jsOr (evidenceJson.get "evidence_id") (.str "Missing")
    document_hash_field :=
      jsOr (jget (evidenceJson.get "document") "hash") (.str "Missing")
    consent_verified :=
      optTruthy (jget (evidenceJson.get "consent") "otp_verified") &&
      optTruthy (jget (evidenceJson.get "consent") "fingerprint_hash")
    fingerprint_present :=
      optTruthy (jget (evidenceJson.get "consent") "fingerprint_hash")
    voice_present :=
      optTruthy (jget (evidenceJson.get "consent") "voice_consent_recorded")
    location_present :=
      optTruthy (jget (jget (evidenceJson.get "consent") "location") "latitude") &&
      optTruthy (jget (jget (evidenceJson.get "consent") "location") "longitude")
    ethereum_anchored := optTruthy (evidenceJson.get "blockchain_tx_hash")
    ipfs_anchored := optTruthy (evidenceJson.get "ipfs_hash")
    anchor_timestamp := evidenceJson.get "timestamp"
    overall_status :=
      if signatureValid && !tampering.tampered then "VERIFIED" else "INVALID"
    confidence_score :=
      if signatureValid && !tampering.tampered then 95 else 15 }

end EvidenceVerifier

/-! ## The verify-evidence edge function (riskUtils.ts:125-205) -/

/-- The human-readable summary the handler attaches (its locale-formatted
`verification_date` is omitted; nothing reads it back). -/
structure VerifySummary where
  document_name : Json
  status : String
  key_findings : List String

/-- What the verify-evidence handler sends back: a 200 response with
report, summary and recommendations, or an error response (the single
catch block always uses status 400; `none` as message stands for an
engine-generated exception message such as a JSON parse error's). -/
inductive VerifyOutcome where
  | report (r : EvidenceVerifier.VerificationReport) (s : VerifySummary)
      (recommendations : List String)
  | errorResponse (status : Nat) (message : Option String)

/-- The `summary.key_findings` list (riskUtils.ts:153-173), built from
the report.  `signature_verification.valid` is the unawaited promise,
truthy, so the first finding is always the check mark. -/
def keyFindings (r : EvidenceVerifier.VerificationReport) : List String :=
  (if r.signature_valid_truthy then ["✓ Digital signature is valid"]
   else ["✗ Digital signature verification failed"]) ++
  (if !r.tampered then ["✓ No tampering detected"]
   else ["✗ Tampering detected: " ++ joinSep ", " r.issues]) ++
  (if r.consent_verified then ["✓ Consent properly captured with biometric data"]
   else ["✗ Consent verification incomplete"]) ++
  (if r.ethereum_anchored || r.ipfs_anchored then
     ["✓ Evidence anchored to blockchain/IPFS"]
   else [])

/-- The `recommendations` list (riskUtils.ts:178-180). -/
def verifyRecommendations (r : EvidenceVerifier.VerificationReport) : List String :=
  if r.overall_status == "VERIFIED" then
    ["Evidence is valid and can be used as legal proof",
     "Store this verification report with the evidence"]
  else
    ["Evidence integrity is compromised",
     "Do not rely on this evidence for legal purposes",
     "Request fresh evidence capture"]

/-- The verify-evidence request handler (riskUtils.ts:125-205) on a POST
request: `body = none` models a request body that fails `req.json()`
(the thrown parse error is caught and returned with status 400);
destructuring a `null` body also throws.  A missing or falsy
`evidence_json` or `signature` throws the handler's own message.
Otherwise the handler builds the report, summary and recommendations
and returns them with status 200. -/
def handleVerifyEvidence (parseDate : Option Json → Option Int) (now : Int)
    (nowIso : String) (body : Option Json) : VerifyOutcome :=
  match body with
  | none => .errorResponse 400 none
  | some .null => .errorResponse 400 none
  | some b =>
    let ej := b.get "evidence_json"
    let sig := b.get "signature"
    if !(optTruthy ej) || !(optTruthy sig) then
      .errorResponse 400 (some "Evidence JSON and signature are required")
    else
      let ejv := ej.getD .null
      let sigv := sig.getD .null
      let r := EvidenceVerifier.generateVerificationReport parseDate now nowIso ejv sigv
      .report r
        { document_name := jsOr (jget (ejv.get "document") "filename") (.str "Unknown")
          status := r.overall_status
          key_findings := keyFindings r }
        (verifyRecommendations r)

/-! ## The submit-consent edge function (src/unnamed/part_009) -/

/-- An environment variable's `!x` truthiness (absent or empty is
falsy). -/
def envTruthy : Option String → Bool
  | none => false
  | some s => !(s == "")

/-- JavaScript `String.prototype.substring(0, n)` on the ASCII hex
strings the anchoring mocks slice. -/
def strTake (n : Nat) (s : String) : String :=
  String.mk (s.data.take n)

namespace BlockchainService

/-- `BlockchainService.anchorToIPFS` (part_009:84-101): `null` when
`IPFS_API_KEY` is not configured, otherwise the mock CID built from the
evidence hash. -/
def anchorToIPFS (ipfsApiKey : Option String) (evidenceHash : String) :
    Option String :=
  if !(envTruthy ipfsApiKey) then none
  else some ("Qm" ++ strTake 44 evidenceHash)

/-- `BlockchainService.anchorToEthereum` (part_009:103-121): `null` when
either of `ETH_RPC_URL`, `ETH_PRIVATE_KEY` is not configured, otherwise
the mock transaction hash. -/
def anchorToEthereum (ethRpcUrl ethPrivateKey : Option String)
    (evidenceHash : String) : Option String :=
  if !(envTruthy ethRpcUrl) || !(envTruthy ethPrivateKey) then none
  else some ("0x" ++ strTake 64 evidenceHash)

end BlockchainService

/-- An absent-or-present string as a JSON value (`null` when absent). -/
def optStrJson : Option String → Json
  | none => .null
  | some s => .str s

/-- An absent-or-present number as a JSON value, the number carried as
its rendering (`latitude ? parseFloat(latitude) : null` and the
longitude twin). -/
def optNumJson : Option String → Json
  | none => .null
  | some r => .num r

/-- The data a successful submit-consent run has in hand when it reaches
step 6 (part_009:216): the looked-up analysis row with its joined
document, the validated form fields, the freshly inserted consent row,
and the values of the process-local generators.  `latNum`/`lngNum` are
the renderings of `parseFloat` on the latitude/longitude form fields,
`none` when the field was falsy; `voicePath` is the uploaded voice
file's storage path, `none` when no voice file was sent; `signature` is
the base64 ECDSA-P256-SHA256 signature `CryptoService.signData` returned
over `canonicalJson` (Web Crypto's signing is randomized, so it enters
as data); `recordId`/`consentId` are the database-assigned row ids. -/
structure GenInputs where
  docId : String
  filename : String
  filePath : String
  docCreatedAt : String
  ocrConfidence : Json
  clauses : Json
  authFlags : Json
  analysisConfidence : Json
  phoneNumber : String
  fingerprintHash : String
  voicePath : Option String
  latNum : Option String
  lngNum : Option String
  address : Option String
  consentTimestamp : Json
  evidenceId : String
  genTimestamp : String
  signature : String
  consentId : String
  recordId : String

/-- The `security` object as first built (part_009:244-248):
`previous_hash` is the literal `null`. -/
def securityUnsigned : Json :=
  .obj [("version", .str "1.0"), ("algorithm", .str "ECDSA-P256-SHA256"),
        ("previous_hash", .null)]

/-- The `security` object after `evidenceData.security.signature =
signature` (part_009:262): assigning a fresh key appends it after the
existing three. -/
def securitySigned (signature : String) : Json :=
  .obj [("version", .str "1.0"), ("algorithm", .str "ECDSA-P256-SHA256"),
        ("previous_hash", .null), ("signature", .str signature)]

/-- The `evidenceData` object literal (part_009:217-249), fields in
source order, around a given `security` object. -/
def evidenceCore (i : GenInputs) (security : Json) : Json :=
  .obj [
    ("evidence_id", .str i.evidenceId),
    ("timestamp", .str i.genTimestamp),
    ("document", .obj [
      ("id", .str i.docId),
      ("filename", .str i.filename),
      ("hash", .str (documentHash i.filePath i.docCreatedAt))]),
    ("analysis", .obj [
      ("ocr_confidence", i.ocrConfidence),
      ("clauses", i.clauses),
      ("auth_flags", i.authFlags),
      ("analysis_confidence", i.analysisConfidence)]),
    ("consent", .obj [
      ("phone_number", .str i.phoneNumber),
      ("otp_verified", .bool true),
      ("fingerprint_hash", .str i.fingerprintHash),
      ("voice_consent_recorded", .bool i.voicePath.isSome),
      ("voice_file_path", optStrJson i.voicePath),
      ("location", .obj [
        ("latitude", optNumJson i.latNum),
        ("longitude", optNumJson i.lngNum),
        ("address", optStrJson i.address)]),
      ("timestamp", i.consentTimestamp)]),
    ("security", security)]

/-- `evidenceData` before signing. -/
def evidenceDataUnsigned (i : GenInputs) : Json :=
  evidenceCore i securityUnsigned

/-- `evidenceData` after the signature assignment, the value that is
hashed in step 9 and persisted as `evidence_json`. -/
def signedEvidence (i : GenInputs) : Json :=
  evidenceCore i (securitySigned i.signature)

/-- `canonicalJson` (part_009:260):
`JSON.stringify(evidenceData, Object.keys(evidenceData).sort())` — the
bytes that are signed.  The sorted array of the six top-level keys acts
as a property list at *every* depth of the serialization. -/
def canonicalJsonOf (i : GenInputs) : String :=
  stringifyWithList (sortStrings (evidenceDataUnsigned i).keys)
    (evidenceDataUnsigned i)

/-- The bytes that are hashed in step 9 (part_009:265):
`JSON.stringify(evidenceData)` with no replacer, after the signature was
assigned. -/
def hashedBytesOf (i : GenInputs) : String :=
  (signedEvidence i).stringify

/-- `evidenceHash` (part_009:265). -/
def evidenceHashOf (i : GenInputs) : String :=
  CryptoService.hashSHA256 (hashedBytesOf i)

/-- A row of `evidence_records` as the migration declares it
(20250923063947_….sql:45-58): `id` is the primary key; `consent_id` is
`NOT NULL REFERENCES consent_records(id)` with **no UNIQUE
constraint**. -/
structure EvidenceRow where
  id : String
  consent_id : String
  evidence_json : Json
  document_hash : String
  signature : String
  previous_hash : Option String
  encrypted : Bool
  blockchain_tx_hash : Option String
  ipfs_hash : Option String

/-- The success response body (part_009:289-300). -/
structure SubmitResponse where
  success : Bool
  evidence_id : String
  evidence_hash : String
  signature : String
  blockchain_anchored : Bool
  ipfs_anchored : Bool
  fingerprint_captured : Bool
  voice_recorded : Bool
  location_captured : Bool

/-- What a successful run persists and returns. -/
structure SubmitResult where
  record : EvidenceRow
  response : SubmitResponse

/-- The environment variables the generation path reads. -/
structure Env where
  ipfsApiKey : Option String
  ethRpcUrl : Option String
  ethPrivateKey : Option String

/-- Steps 6-11 of the submit-consent handler (part_009:216-307) on a run
whose lookups and inserts succeed: build `evidenceData`, sign it (the
signature enters through `i.signature`), hash the signed JSON, attempt
both anchors, insert the `evidence_records` row and build the success
response.  `previous_hash` is the literal `null` both inside
`security` and in the inserted row (part_009:247,279); no prior record
is ever looked up. -/
def generateEvidence (env : Env) (i : GenInputs) : SubmitResult :=
  let ev := signedEvidence i
  let evidenceHash := evidenceHashOf i
  let ipfsHash := BlockchainService.anchorToIPFS env.ipfsApiKey evidenceHash
  let blockchainTxHash :=
    BlockchainService.anchorToEthereum env.ethRpcUrl env.ethPrivateKey evidenceHash
  { record :=
    { id := i.recordId
      consent_id := i.consentId
      evidence_json := ev
      document_hash := documentHash i.filePath i.docCreatedAt
      signature := i.signature
      previous_hash := none
      encrypted := false
      blockchain_tx_hash := blockchainTxHash
      ipfs_hash := ipfsHash }
    response :=
    { success := true
      evidence_id := i.recordId
      evidence_hash := evidenceHash
      signature := i.signature
      blockchain_anchored := blockchainTxHash.isSome
      ipfs_anchored := ipfsHash.isSome
      fingerprint_captured := true
      voice_recorded := i.voicePath.isSome
      location_captured := i.latNum.isSome && i.lngNum.isSome } }

/-- Every error thrown anywhere in the submit-consent handler — OTP
failure, validation, storage, *and a failed insert into
`evidence_records`* — lands in the single catch block, which responds
with status 400 (part_009:309-320).  There is no 409 path anywhere in
the repository. -/
def submitConsentErrorStatus : Nat := 400

/-- Insert into `evidence_records` under the migration's declared
constraints: the only uniqueness the table enforces is the primary key
on `id` (gen_random_uuid); `consent_id` carries no UNIQUE constraint, so
a row whose `consent_id` already occurs inserts successfully. -/
def insertEvidenceRecord (tbl : List EvidenceRow) (r : EvidenceRow) :
    Except String (List EvidenceRow) :=
  if tbl.any (fun r0 => r0.id == r.id) then
    .error "duplicate key value violates unique constraint"
  else
    .ok (tbl ++ [r])

/-! ## The get-evidence edge function (src/supabase/functions/get-evidence/index.ts) -/

/-- A stored `evidence_records` row joined with its consent, analysis
and document rows, as the get-evidence query selects it. -/
structure StoredEvidence where
  id : String
  created_at : String
  document_hash : String
  signature : String
  evidence_json : Json
  blockchain_tx_hash : Option String
  ipfs_hash : Option String
  encrypted : Bool
  consent_timestamp : Json
  analysis_confidence : Json
  clauses : Json
  document_filename : String

/-- The response body of get-evidence (index.ts:56-80). -/
structure GetEvidenceResponse where
  evidence_id : String
  created_at : String
  document_hash : String
  signature : String
  verified : Bool
  evidence_data : Json
  anchored : Bool
  ethereum_tx : Option String
  ipfs_hash : Option String
  signature_valid : Bool
  tamper_evident : Bool
  encryption_status : String
  hash_chain_valid : Bool
  document_filename : String
  consent_timestamp : Json
  processing_confidence : Json
  clauses_detected : Nat

/-- The get-evidence handler's response for a row the id resolved to
(index.ts:56-80): `verified`, `signature_valid`, `tamper_evident` and
`hash_chain_valid` are the literals `true` (the source comments them
"Would include actual signature verification"); no check of any kind is
computed from the row. -/
def getEvidenceResponse (e : StoredEvidence) : GetEvidenceResponse :=
  { evidence_id := e.id
    created_at := e.created_at
    document_hash := e.document_hash
    signature := e.signature
    verified := true
    evidence_data := e.evidence_json
    anchored := e.blockchain_tx_hash.isSome || e.ipfs_hash.isSome
    ethereum_tx := e.blockchain_tx_hash
    ipfs_hash := e.ipfs_hash
    signature_valid := true
    tamper_evident := true
    encryption_status := if e.encrypted then "encrypted" else "plaintext"
    hash_chain_valid := true
    document_filename := e.document_filename
    consent_timestamp := e.consent_timestamp
    processing_confidence := e.analysis_confidence
    clauses_detected :=
      match jsLength e.clauses with
      | some n => n
      | none => 0 }

/-! ## Concrete runs used by the claim theorems -/

/-- A concrete successful generation run in the shape of the
specification's §8 scenario: the document at
`documents/u1/a.pdf`, created `2025-01-01T00:00:00Z`, an OTP-verified
consent with a 64-character fingerprint hash, no voice file and no
location.  The signature is an 88-character base64 string of the size
`btoa` gives a raw P-256 signature. -/
def sampleInputs : GenInputs :=
  { docId := "d1"
    filename := "a.pdf"
    filePath := "documents/u1/a.pdf"
    docCreatedAt := "2025-01-01T00:00:00Z"
    ocrConfidence := .num "0.9"
    clauses := .arr []
    authFlags := .obj [("qr_present", .bool false)]
    analysisConfidence := .num "0.8"
    phoneNumber := "+15550100"
    fingerprintHash := "q83vEjRWeJCrze8SNFZ4kKvN7xI0VniQq83vEjRWeJCrze8SNFZ4kKvN7xI0VniQ"
    voicePath := none
    latNum := none
    lngNum := none
    address := none
    consentTimestamp := .str "2025-01-02T00:00:00+00:00"
    evidenceId := "e1"
    genTimestamp := "2025-01-02T00:00:01.000Z"
    signature := "U2lnbmF0dXJlU2lnbmF0dXJlU2lnbmF0dXJlU2lnbmF0dXJlU2lnbmF0dXJlU2lnbmF0dXJlU2lnbmF0dXJlU2ln"
    consentId := "c1"
    recordId := "r1" }

/-- The same run with the document file named `b.pdf`. -/
def sampleInputsB : GenInputs :=
  { sampleInputs with filename := "b.pdf" }

/-- The same run with the document file named `TAMPERED.pdf` — a
perfectly valid upload whose name happens to contain the sentinel
word. -/
def sampleInputsT : GenInputs :=
  { sampleInputs with filename := "TAMPERED.pdf" }

/-- A `Date` parser fixture: it parses exactly the sample run's
generated ISO timestamp, to the epoch-milliseconds value the engine
would give it. -/
def sampleParseDate : Option Json → Option Int :=
  fun j =>
    match j with
    | some (.str s) => if s == "2025-01-02T00:00:01.000Z" then some 1735776001000 else none
    | _ => none

/-- A verification-time clock later than the sample run. -/
def sampleNow : Int := 1735800000000

/-- The environment with no anchoring credentials configured — the
default deployment. -/
def envNone : Env := ⟨none, none, none⟩

/-- A second generation run for the same document (`d1`, same storage
path and creation time), later in time — the successor record `E2` of
the chain-integrity claims. -/
def sampleInputs2 : GenInputs :=
  { sampleInputs with
    evidenceId := "e2"
    genTimestamp := "2025-01-03T00:00:02.000Z"
    consentTimestamp := .str "2025-01-03T00:00:01+00:00"
    consentId := "c2"
    recordId := "r2"
    signature := "MkNkU2lnbmF0dXJlU2lnbmF0dXJlU2lnbmF0dXJlU2lnbmF0dXJlU2lnbmF0dXJlU2lnbmF0dXJlU2lnbmF0dXJl" }

/-- The record the sample run persists. -/
def rowA : EvidenceRow := (generateEvidence envNone sampleInputs).record

/-- A second record for the *same* consent id `c1`, as a duplicate
generation attempt for that consent would try to persist. -/
def rowB : EvidenceRow :=
  (generateEvidence envNone { sampleInputs2 with consentId := "c1" }).record

/-- The sample run with the signature replaced by the short string
`"abc"` — present (truthy) but rejected by `verifySignature`'s length
check. -/
def sampleInputsShortSig : GenInputs := { sampleInputs with signature := "abc" }

/-- The specification's tamper flip: replace the value of
`consent.fingerprint_hash` (when the `consent` object and the field
exist) by JSON `null`, leaving everything else unchanged. -/
def setFingerprintNull (j : Json) : Json :=
  match j with
  | .obj fs => .obj (fs.map (fun kv =>
      if kv.1 == "consent" then
        (kv.1,
          match kv.2 with
          | .obj cfs => .obj (cfs.map (fun c =>
              if c.1 == "fingerprint_hash" then (c.1, Json.null) else c))
          | other => other)
      else kv))
  | other => other

/-- A concrete verify-evidence request body: the sample run's evidence
and signature, as the round trip submits them. -/
def sampleVerifyBody : Json :=
  .obj [("evidence_json", signedEvidence sampleInputs),
        ("signature", .str sampleInputs.signature)]

instance : Finite Char := by
  apply Finite.of_injective (fun c : Char => (⟨c.toNat, by
    have h := c.valid
    unfold Char.toNat
    rcases h with h | h <;> omega⟩ : Fin 1114112))
  intro a b h
  simp only [Fin.mk.injEq] at h
  unfold Char.toNat at h
  exact Char.ext (UInt32.ext h)

instance : Finite {l : List Char // l.length = 64} := by
  apply Finite.of_injective
    (fun l : {l : List Char // l.length = 64} =>
      (fun i : Fin 64 => l.1.get (Fin.cast l.2.symm i)))
  intro a b h
  apply Subtype.ext
  apply List.ext_get (by rw [a.2, b.2])
  intro n h1 h2
  have := congrFun h ⟨n, by omega⟩
  simpa using this

set_option maxRecDepth 40000

/-! ## Shared lemmas -/

/-- The SHA-256 digest has 32 bytes. -/
theorem sha256_length (msg : List Nat) : (sha256 msg).length = 32 := by
  simp [sha256, wordBytesBE]

/-- Hex-rendering doubles the byte count. -/
theorem flatten_hexPairs_length (bs : List Nat) :
    ((bs.map byteHexPair).flatten).length = 2 * bs.length := by
  induction bs with
  | nil => rfl
  | cons b t ih => simp [byteHexPair] at ih ⊢; omega

/-- A SHA-256 hex digest string has 64 characters. -/
theorem hashSHA256_data_length (s : String) :
    (CryptoService.hashSHA256 s).data.length = 64 := by
  show ((sha256 (strUtf8 s)).map byteHexPair).flatten.length = 64
  rw [flatten_hexPairs_length, sha256_length]

/-- A SHA-256 hex digest string is never empty. -/
theorem hashSHA256_ne_empty (s : String) : CryptoService.hashSHA256 s ≠ "" := by
  intro h
  have h2 : (CryptoService.hashSHA256 s).data.length = ("" : String).data.length := by
    rw [h]
  rw [hashSHA256_data_length] at h2
  exact absurd h2 (by decide)

/-- `List.getD` returns an element of the list or the default. -/
theorem getD_mem_or_default {α : Type} (l : List α) (n : Nat) (d : α) :
    l.getD n d ∈ l ∨ l.getD n d = d := by
  induction l generalizing n with
  | nil => right; rfl
  | cons a t ih =>
    cases n with
    | zero => left; simp [List.getD]
    | succ m =>
      rcases ih m with h | h
      · left; simpa [List.getD] using Or.inr (by simpa [List.getD] using h)
      · right; simpa [List.getD] using h

/-- Hex digits are ASCII, hence one UTF-16 unit each. -/
theorem hexDigit_lt (n : Nat) : (hexDigit n).toNat < 65536 := by
  unfold hexDigit
  have hall : ∀ c ∈ "0123456789abcdef".data, c.toNat < 65536 := by decide
  rcases getD_mem_or_default "0123456789abcdef".data n '0' with h | h
  · exact hall _ h
  · rw [h]; decide

/-- Summing a constant-one map gives the length. -/
theorem sum_map_one {α : Type} (f : α → Nat) (l : List α)
    (h : ∀ c ∈ l, f c = 1) : (l.map f).sum = l.length := by
  induction l with
  | nil => rfl
  | cons a t ih =>
    simp only [List.map_cons, List.sum_cons, List.length_cons,
      h a (by simp)]
    rw [ih (fun c hc => h c (by simp [hc]))]
    omega

/-- A SHA-256 hex digest has JavaScript `.length` 64. -/
theorem utf16Len_hashSHA256 (s : String) :
    utf16Len (CryptoService.hashSHA256 s) = 64 := by
  have hchars : ∀ c ∈ (CryptoService.hashSHA256 s).data, utf16UnitLen c = 1 := by
    intro c hc
    have hmem : c ∈ ((sha256 (strUtf8 s)).map byteHexPair).flatten := hc
    rw [List.mem_flatten] at hmem
    obtain ⟨pair, hp, hcp⟩ := hmem
    rw [List.mem_map] at hp
    obtain ⟨b, _, rfl⟩ := hp
    have hcases : c = hexDigit (b / 16) ∨ c = hexDigit (b % 16) := by
      simpa [byteHexPair] using hcp
    unfold utf16UnitLen
    rcases hcases with rfl | rfl <;> simp [hexDigit_lt]
  unfold utf16Len
  rw [sum_map_one _ _ hchars, hashSHA256_data_length]


/-! ## Claim theorems -/

/-- Claim C5, counterexample: in the concrete successor run `E2` for the
same document as `E1`, `evidence_json.security.previous_hash` is the
JSON `null` (a falsy value, not a non-null hash) and the persisted
`previous_hash` column is `null`, even though a prior record for the
same document lineage exists (`E1` and `E2` carry the same document
hash).  The claim asserts it is non-null and equal to `evidenceHash(E1)`. -/
theorem C5_counterexample :
    jget (((generateEvidence envNone sampleInputs2).record.evidence_json).get
      "security") "previous_hash" = some .null ∧
    Json.null.truthy = false ∧
    (generateEvidence envNone sampleInputs2).record.previous_hash = none ∧
    (generateEvidence envNone sampleInputs).record.document_hash =
      (generateEvidence envNone sampleInputs2).record.document_hash :=
  ⟨rfl, rfl, rfl, rfl⟩

/-- Claim C5, amended: for every environment and every successful
generation run, `evidence_json.security.previous_hash` and the persisted
`previous_hash` are null; the code performs no lookup of a prior record
and no hash-chain linking (part_009:247 writes the literal `null`, with
a comment deferring chaining; part_009:279 inserts `null`). -/
theorem C5_amended (env : Env) (i : GenInputs) :
    (generateEvidence env i).record.previous_hash = none ∧
    jget ((generateEvidence env i).record.evidence_json.get "security")
      "previous_hash" = some .null :=
  ⟨rfl, rfl⟩

/-- Claim C6, counterexample: the `evidence_records` table accepts a
second row with the same `consent_id` — the migration declares no UNIQUE
constraint on it, only the primary key on `id` — and every error of the
submit-consent handler is surfaced with HTTP status 400, never 409. -/
theorem C6_counterexample :
    insertEvidenceRecord [rowA] rowB = .ok ([rowA] ++ [rowB]) ∧
    rowA.consent_id = "c1" ∧ rowB.consent_id = "c1" ∧ rowA.id ≠ rowB.id ∧
    submitConsentErrorStatus = 400 :=
  ⟨rfl, rfl, rfl, by decide, rfl⟩

/-- Claim C6, amended: an insert into `evidence_records` succeeds
whenever its `id` is fresh, regardless of how many existing rows carry
the same `consent_id` (the schema enforces no uniqueness there), and a
failed generation request — insert failures included — is answered with
status 400, not 409. -/
theorem C6_amended (tbl : List EvidenceRow) (r : EvidenceRow)
    (h : tbl.any (fun r0 => r0.id == r.id) = false) :
    insertEvidenceRecord tbl r = .ok (tbl ++ [r]) ∧
    submitConsentErrorStatus = 400 := by
  refine ⟨?_, rfl⟩
  simp [insertEvidenceRecord, h]

theorem C6_amended_witness :
    ([rowA].any (fun r0 => r0.id == rowB.id) = false) ∧
    (insertEvidenceRecord [rowA] rowB = .ok ([rowA] ++ [rowB]) ∧
     submitConsentErrorStatus = 400) :=
  ⟨rfl, C6_amended [rowA] rowB rfl⟩

/-- Claim C9: anchoring is best-effort and non-fatal.  Each channel
returns `null` when its credentials are absent or empty; the generation
run still succeeds for *every* environment, and under absent credentials
the persisted record carries `null` anchor fields while the evidence
itself is persisted unchanged. -/
theorem C9_anchoring_nonfatal (env envAny : Env) (i : GenInputs) (h : String)
    (hipfs : envTruthy env.ipfsApiKey = false)
    (heth : envTruthy env.ethRpcUrl = false ∨ envTruthy env.ethPrivateKey = false) :
    BlockchainService.anchorToIPFS env.ipfsApiKey h = none ∧
    BlockchainService.anchorToEthereum env.ethRpcUrl env.ethPrivateKey h = none ∧
    (generateEvidence envAny i).response.success = true ∧
    (generateEvidence env i).record.ipfs_hash = none ∧
    (generateEvidence env i).record.blockchain_tx_hash = none ∧
    (generateEvidence env i).record.evidence_json = signedEvidence i ∧
    (generateEvidence env i).response.ipfs_anchored = false ∧
    (generateEvidence env i).response.blockchain_anchored = false := by
  have h1 : ∀ hh : String, BlockchainService.anchorToIPFS env.ipfsApiKey hh = none := by
    intro hh
    simp [BlockchainService.anchorToIPFS, hipfs]
  have h2 : ∀ hh : String,
      BlockchainService.anchorToEthereum env.ethRpcUrl env.ethPrivateKey hh = none := by
    intro hh
    rcases heth with he | he <;> simp [BlockchainService.anchorToEthereum, he]
  refine ⟨h1 h, h2 h, rfl, ?_, ?_, rfl, ?_, ?_⟩ <;>
    simp [generateEvidence, h1, h2]

theorem C9_witness :
    envTruthy envNone.ipfsApiKey = false ∧
    envTruthy envNone.ethRpcUrl = false ∧
    (BlockchainService.anchorToIPFS envNone.ipfsApiKey "deadbeef" = none ∧
     BlockchainService.anchorToEthereum envNone.ethRpcUrl envNone.ethPrivateKey
       "deadbeef" = none ∧
     (generateEvidence envNone sampleInputs).response.success = true ∧
     (generateEvidence envNone sampleInputs).record.ipfs_hash = none ∧
     (generateEvidence envNone sampleInputs).record.blockchain_tx_hash = none ∧
     (generateEvidence envNone sampleInputs).record.evidence_json =
       signedEvidence sampleInputs ∧
     (generateEvidence envNone sampleInputs).response.ipfs_anchored = false ∧
     (generateEvidence envNone sampleInputs).response.blockchain_anchored = false) :=
  ⟨rfl, rfl, C9_anchoring_nonfatal envNone envNone sampleInputs "deadbeef" rfl (Or.inl rfl)⟩

/-- Claim C10: for every stored record the get-evidence id resolves to,
the response's `verified`, `security_analysis.signature_valid`,
`tamper_evident` and `hash_chain_valid` are the constant `true` — the
handler computes no verification from the row, so the flags are
independent of its `evidence_json`, `signature`, `document_hash` and
anchoring fields. -/
theorem C10_get_evidence_reports_constants (e : StoredEvidence) :
    (getEvidenceResponse e).verified = true ∧
    (getEvidenceResponse e).signature_valid = true ∧
    (getEvidenceResponse e).tamper_evident = true ∧
    (getEvidenceResponse e).hash_chain_valid = true :=
  ⟨rfl, rfl, rfl, rfl⟩

/-- Claim C1: the code's `canonicalJson` is not a complete, sorted
canonical form, and the generation path signs different bytes than it
hashes.  At the concrete run: (1) two evidence values that differ in
`document.filename` produce byte-identical `canonicalJson`, because the
sorted top-level key array acts as a `JSON.stringify` property list that
drops every nested key not named among the six top-level keys — the
signed bytes contain no `filename` and no `hash` field at all; (2) the
bytes hashed in step 9 (`JSON.stringify(evidenceData)` after the
signature assignment) differ from the bytes signed in step 8. -/
theorem C1_canonicalization_incomplete :
    canonicalJsonOf sampleInputs = canonicalJsonOf sampleInputsB ∧
    sampleInputs.filename ≠ sampleInputsB.filename ∧
    strContains (canonicalJsonOf sampleInputs) "filename" = false ∧
    strContains (canonicalJsonOf sampleInputs) "hash" = false ∧
    canonicalJsonOf sampleInputs ≠ hashedBytesOf sampleInputs :=
  ⟨by decide, by decide, by decide, by decide, by decide⟩

/-- Claim C2: the signature check never influences the report.
`generateVerificationReport` binds the un-awaited promise of the
`async` `verifySignature`, which is truthy as an object, so
`overall_status` is `VERIFIED` with `confidence_score` 95 whenever
`detectTampering` finds no issues — here even though the boolean
`verifySignature` resolves to is `false` (the present signature `"abc"`
is shorter than 64 characters). -/
theorem C2_overall_status_ignores_signature_check :
    EvidenceVerifier.verifySignatureResolved (signedEvidence sampleInputsShortSig)
      (.str "abc") = false ∧
    (EvidenceVerifier.generateVerificationReport sampleParseDate sampleNow "t"
      (signedEvidence sampleInputsShortSig) (.str "abc")).overall_status = "VERIFIED" ∧
    (EvidenceVerifier.generateVerificationReport sampleParseDate sampleNow "t"
      (signedEvidence sampleInputsShortSig) (.str "abc")).confidence_score = 95 ∧
    (EvidenceVerifier.generateVerificationReport sampleParseDate sampleNow "t"
      (signedEvidence sampleInputsShortSig) (.str "abc")).issues = [] :=
  ⟨by decide, by decide, by decide, by decide⟩

/-- `tampered` is by construction the emptiness test of `issues`. -/
theorem detectTampering_tampered_eq (pd : Option Json → Option Int)
    (now : Int) (ev : Json) :
    (EvidenceVerifier.detectTampering pd now ev).tampered =
      decide (0 < (EvidenceVerifier.detectTampering pd now ev).issues.length) := rfl

/-- Claim C3, counterexample: a fully valid generation run — OTP
verified, all fields present, well-formed hash and signature — whose
document happens to be named `TAMPERED.pdf` is reported `INVALID` with
confidence 15 by the verifier, because the sentinel substring scan fires
on the serialized payload.  The round-trip claim promises `VERIFIED`
with 95 for every valid triple. -/
theorem C3_counterexample :
    (EvidenceVerifier.generateVerificationReport sampleParseDate sampleNow "t"
      (signedEvidence sampleInputsT) (.str sampleInputsT.signature)).overall_status =
      "INVALID" ∧
    (EvidenceVerifier.generateVerificationReport sampleParseDate sampleNow "t"
      (signedEvidence sampleInputsT) (.str sampleInputsT.signature)).confidence_score = 15 ∧
    (EvidenceVerifier.generateVerificationReport sampleParseDate sampleNow "t"
      (signedEvidence sampleInputsT) (.str sampleInputsT.signature)).issues =
      ["Evidence contains modification markers"] :=
  ⟨by decide, by decide, by decide⟩

/-- Claim C3, amended: the round trip verifies.  For every generation
run whose phone number, fingerprint hash and signature are nonempty (the
handler and `generateFingerprintHash`/`signData` guarantee this), whose
serialized evidence contains neither `MODIFIED` nor `TAMPERED` as a
substring, and which is verified at or after its generation time (the
engine parsing the generated ISO timestamp), the verifier reports
`VERIFIED` with confidence 95 and no issues. -/
theorem C3_amended (i : GenInputs) (pd : Option Json → Option Int)
    (now : Int) (nowIso : String) (t : Int)
    (hts : pd (some (.str i.genTimestamp)) = some t) (hnow : t ≤ now)
    (hphone : i.phoneNumber ≠ "") (hfp : i.fingerprintHash ≠ "")
    (hsig : i.signature ≠ "")
    (hm1 : strContains (signedEvidence i).stringify "MODIFIED" = false)
    (hm2 : strContains (signedEvidence i).stringify "TAMPERED" = false) :
    (EvidenceVerifier.generateVerificationReport pd now nowIso (signedEvidence i)
      (.str i.signature)).overall_status = "VERIFIED" ∧
    (EvidenceVerifier.generateVerificationReport pd now nowIso (signedEvidence i)
      (.str i.signature)).confidence_score = 95 ∧
    (EvidenceVerifier.generateVerificationReport pd now nowIso (signedEvidence i)
      (.str i.signature)).issues = [] := by
  have hts2 : pd ((signedEvidence i).get "timestamp") = some t := by
    have e : (signedEvidence i).get "timestamp" = some (.str i.genTimestamp) := rfl
    rw [e, hts]
  have hnlt : ¬ (now < t) := not_lt.mpr hnow
  have eph : jget ((signedEvidence i).get "consent") "phone_number" =
      some (.str i.phoneNumber) := rfl
  have hbph : (i.phoneNumber == "") = false := beq_eq_false_iff_ne.mpr hphone
  have efp : jget ((signedEvidence i).get "consent") "fingerprint_hash" =
      some (.str i.fingerprintHash) := rfl
  have hbfp : (i.fingerprintHash == "") = false := beq_eq_false_iff_ne.mpr hfp
  have edh : jget ((signedEvidence i).get "document") "hash" =
      some (.str (documentHash i.filePath i.docCreatedAt)) := rfl
  have hbdh : (documentHash i.filePath i.docCreatedAt == "") = false :=
    beq_eq_false_iff_ne.mpr (hashSHA256_ne_empty _)
  have hlen : utf16Len (documentHash i.filePath i.docCreatedAt) = 64 :=
    utf16Len_hashSHA256 _
  have esg : jget ((signedEvidence i).get "security") "signature" =
      some (.str i.signature) := rfl
  have hbsg : (i.signature == "") = false := beq_eq_false_iff_ne.mpr hsig
  have hiss : (EvidenceVerifier.detectTampering pd now (signedEvidence i)).issues = [] := by
    simp only [EvidenceVerifier.detectTampering]
    rw [hts2]
    simp [hnlt, eph, efp, edh, esg, optTruthy, Json.truthy, hbph, hbfp, hbdh,
      hbsg, jsLength, hlen, hm1, hm2]
  have htamp : (EvidenceVerifier.detectTampering pd now (signedEvidence i)).tampered = false := by
    rw [detectTampering_tampered_eq, hiss]
    decide
  refine ⟨?_, ?_, ?_⟩ <;>
    simp [EvidenceVerifier.generateVerificationReport,
      EvidenceVerifier.unawaitedSignatureValidTruthy, htamp, hiss]

theorem C3_amended_witness :
    sampleParseDate (some (.str sampleInputs.genTimestamp)) = some 1735776001000 ∧
    (1735776001000 : Int) ≤ sampleNow ∧
    sampleInputs.phoneNumber ≠ "" ∧
    strContains (signedEvidence sampleInputs).stringify "MODIFIED" = false ∧
    ((EvidenceVerifier.generateVerificationReport sampleParseDate sampleNow "t"
       (signedEvidence sampleInputs) (.str sampleInputs.signature)).overall_status =
       "VERIFIED" ∧
     (EvidenceVerifier.generateVerificationReport sampleParseDate sampleNow "t"
       (signedEvidence sampleInputs) (.str sampleInputs.signature)).confidence_score = 95 ∧
     (EvidenceVerifier.generateVerificationReport sampleParseDate sampleNow "t"
       (signedEvidence sampleInputs) (.str sampleInputs.signature)).issues = []) :=
  ⟨by decide, by decide, by decide, by decide,
   C3_amended sampleInputs sampleParseDate sampleNow "t" 1735776001000
     (by decide) (by decide) (by decide) (by decide) (by decide)
     (by decide) (by decide)⟩

/-- Claim C4, counterexample: flipping the single field
`document.filename` of the sample signed payload from `a.pdf` to `b.pdf`
leaves the verification report `VERIFIED` with confidence 95 and an
empty issue list — no check reads that field (and, the signature check
being unawaited, no cryptographic comparison ever runs).  The claim
promises `INVALID` with an issue naming the flipped field for *every*
single-field flip. -/
theorem C4_counterexample :
    jget ((signedEvidence sampleInputs).get "document") "filename" =
      some (.str "a.pdf") ∧
    jget ((signedEvidence sampleInputsB).get "document") "filename" =
      some (.str "b.pdf") ∧
    ("a.pdf" : String) ≠ "b.pdf" ∧
    (EvidenceVerifier.generateVerificationReport sampleParseDate sampleNow "t"
      (signedEvidence sampleInputsB) (.str sampleInputsB.signature)).overall_status =
      "VERIFIED" ∧
    (EvidenceVerifier.generateVerificationReport sampleParseDate sampleNow "t"
      (signedEvidence sampleInputsB) (.str sampleInputsB.signature)).confidence_score = 95 ∧
    (EvidenceVerifier.generateVerificationReport sampleParseDate sampleNow "t"
      (signedEvidence sampleInputsB) (.str sampleInputsB.signature)).issues = [] :=
  ⟨rfl, rfl, by decide, by decide, by decide, by decide⟩

/-- After nullifying, looking up `fingerprint_hash` finds `null` or
nothing — falsy either way. -/
theorem lookupNullified (cfs : List (String × Json)) :
    optTruthy (lookupField (cfs.map (fun c =>
      if c.1 == "fingerprint_hash" then (c.1, Json.null) else c))
      "fingerprint_hash") = false := by
  induction cfs with
  | nil => rfl
  | cons c rest ih =>
    obtain ⟨k, v⟩ := c
    simp only [List.map_cons]
    by_cases hk : (k == "fingerprint_hash") = true
    · rw [if_pos hk]
      simp only [lookupField]
      rw [if_pos hk]
      rfl
    · rw [if_neg hk]
      simp only [lookupField]
      rw [if_neg hk]
      exact ih

/-- The nullified payload's `consent?.fingerprint_hash` is falsy for
every payload. -/
theorem setFingerprintNull_falsy (ev : Json) :
    optTruthy (jget (Json.get (setFingerprintNull ev) "consent")
      "fingerprint_hash") = false := by
  cases ev with
  | obj fs =>
    show optTruthy (jget (lookupField (fs.map _) "consent") "fingerprint_hash") = false
    induction fs with
    | nil => rfl
    | cons kv rest ih =>
      obtain ⟨k, v⟩ := kv
      simp only [List.map_cons]
      by_cases hk : (k == "consent") = true
      · rw [if_pos hk]
        simp only [lookupField]
        rw [if_pos hk]
        cases v with
        | obj cfs => exact lookupNullified cfs
        | null => rfl
        | bool b => rfl
        | num r => rfl
        | str s => rfl
        | arr l => rfl
      · rw [if_neg hk]
        simp only [lookupField]
        rw [if_neg hk]
        exact ih
  | null => rfl
  | bool b => rfl
  | num r => rfl
  | str s => rfl
  | arr l => rfl

/-- The report's issue list is `detectTampering`'s. -/
theorem report_issues_eq (pd : Option Json → Option Int) (now : Int)
    (nowIso : String) (ev sig : Json) :
    (EvidenceVerifier.generateVerificationReport pd now nowIso ev sig).issues =
      (EvidenceVerifier.detectTampering pd now ev).issues := rfl

/-- Claim C4, amended: the tamper flip the specification itself
instantiates — `consent.fingerprint_hash` set to `null` — is detected
for *every* payload and every clock: the report carries the issue
`Missing fingerprint hash`, `overall_status = INVALID` and
`confidence_score = 15`.  (Only the handful of fields `detectTampering`
reads are tamper-sensitive; the C4 counterexample shows a field that is
not.) -/
theorem C4_amended (pd : Option Json → Option Int) (now : Int)
    (nowIso : String) (ev sig : Json) :
    "Missing fingerprint hash" ∈
      (EvidenceVerifier.generateVerificationReport pd now nowIso
        (setFingerprintNull ev) sig).issues ∧
    (EvidenceVerifier.generateVerificationReport pd now nowIso
      (setFingerprintNull ev) sig).overall_status = "INVALID" ∧
    (EvidenceVerifier.generateVerificationReport pd now nowIso
      (setFingerprintNull ev) sig).confidence_score = 15 := by
  have hfp := setFingerprintNull_falsy ev
  have hmem : "Missing fingerprint hash" ∈
      (EvidenceVerifier.detectTampering pd now (setFingerprintNull ev)).issues := by
    simp only [EvidenceVerifier.detectTampering]
    simp [hfp, List.mem_append]
  have htamp : (EvidenceVerifier.detectTampering pd now
      (setFingerprintNull ev)).tampered = true := by
    rw [detectTampering_tampered_eq]
    simpa using List.length_pos.mpr (List.ne_nil_of_mem hmem)
  refine ⟨?_, ?_, ?_⟩
  · simpa [report_issues_eq] using hmem
  · simp [EvidenceVerifier.generateVerificationReport,
      EvidenceVerifier.unawaitedSignatureValidTruthy, htamp]
  · simp [EvidenceVerifier.generateVerificationReport,
      EvidenceVerifier.unawaitedSignatureValidTruthy, htamp]

/-- With the signature check unawaited, the report is `INVALID` exactly
when `detectTampering` produced issues. -/
theorem report_invalid_iff (pd : Option Json → Option Int) (now : Int)
    (nowIso : String) (ev sig : Json) :
    ((EvidenceVerifier.generateVerificationReport pd now nowIso ev sig).overall_status
        = "INVALID" ↔
      (EvidenceVerifier.generateVerificationReport pd now nowIso ev sig).issues ≠ []) := by
  have hiss := report_issues_eq pd now nowIso ev sig
  by_cases h : (EvidenceVerifier.detectTampering pd now ev).issues = []
  · have ht : (EvidenceVerifier.detectTampering pd now ev).tampered = false := by
      rw [detectTampering_tampered_eq, h]
      decide
    have hne : ("VERIFIED" : String) ≠ "INVALID" := by decide
    simp [EvidenceVerifier.generateVerificationReport,
      EvidenceVerifier.unawaitedSignatureValidTruthy, ht, hiss, h, hne]
  · have ht : (EvidenceVerifier.detectTampering pd now ev).tampered = true := by
      rw [detectTampering_tampered_eq]
      simpa using List.length_pos.mpr h
    simp [EvidenceVerifier.generateVerificationReport,
      EvidenceVerifier.unawaitedSignatureValidTruthy, ht, hiss, h]

/-- Claim C7, counterexample: the verify-evidence operation does *not*
return a structured report for every input — a body whose
`evidence_json` or `signature` is missing (or a body that fails to parse
as JSON) is answered with an HTTP 400 error response carrying an error
message, not with a `VerificationReport`. -/
theorem C7_counterexample :
    handleVerifyEvidence sampleParseDate sampleNow "t" (some (.obj [])) =
      .errorResponse 400 (some "Evidence JSON and signature are required") ∧
    handleVerifyEvidence sampleParseDate sampleNow "t" none =
      .errorResponse 400 none :=
  ⟨rfl, rfl⟩

/-- Claim C7, amended: once a request body parses as JSON and carries
truthy `evidence_json` and `signature`, verification never throws and
never returns an error response: for *every* such body — the evidence
arbitrarily malformed — the handler returns a structured report, and
that report is `INVALID` exactly when it carries a nonempty issue list
(the descriptive findings).  Bodies without those two fields get a 400
error response instead. -/
theorem C7_amended (pd : Option Json → Option Int) (now : Int) (nowIso : String)
    (b ej sigv : Json)
    (hej : b.get "evidence_json" = some ej) (hejt : ej.truthy = true)
    (hsig : b.get "signature" = some sigv) (hsigt : sigv.truthy = true) :
    ∃ s recs,
      handleVerifyEvidence pd now nowIso (some b) =
        .report (EvidenceVerifier.generateVerificationReport pd now nowIso ej sigv)
          s recs ∧
      ((EvidenceVerifier.generateVerificationReport pd now nowIso ej sigv).overall_status
          = "INVALID" ↔
        (EvidenceVerifier.generateVerificationReport pd now nowIso ej sigv).issues ≠ []) := by
  cases b with
  | null => simp [Json.get] at hej
  | bool b2 => simp [Json.get] at hej
  | num r => simp [Json.get] at hej
  | str s => simp [Json.get] at hej
  | arr l => simp [Json.get] at hej
  | obj fs =>
    refine
      ⟨{ document_name := jsOr (jget (ej.get "document") "filename") (.str "Unknown")
         status := (EvidenceVerifier.generateVerificationReport pd now nowIso
           ej sigv).overall_status
         key_findings := keyFindings (EvidenceVerifier.generateVerificationReport
           pd now nowIso ej sigv) },
       verifyRecommendations (EvidenceVerifier.generateVerificationReport pd now
         nowIso ej sigv),
       ?_, report_invalid_iff pd now nowIso ej sigv⟩
    simp only [handleVerifyEvidence]
    rw [hej, hsig]
    simp [optTruthy, hejt, hsigt]

theorem C7_amended_witness :
    sampleVerifyBody.get "evidence_json" = some (signedEvidence sampleInputs) ∧
    (signedEvidence sampleInputs).truthy = true ∧
    sampleVerifyBody.get "signature" = some (.str sampleInputs.signature) ∧
    (Json.str sampleInputs.signature).truthy = true ∧
    (∃ s recs,
      handleVerifyEvidence sampleParseDate sampleNow "t" (some sampleVerifyBody) =
        .report (EvidenceVerifier.generateVerificationReport sampleParseDate sampleNow
          "t" (signedEvidence sampleInputs) (.str sampleInputs.signature)) s recs ∧
      ((EvidenceVerifier.generateVerificationReport sampleParseDate sampleNow "t"
          (signedEvidence sampleInputs) (.str sampleInputs.signature)).overall_status
          = "INVALID" ↔
        (EvidenceVerifier.generateVerificationReport sampleParseDate sampleNow "t"
          (signedEvidence sampleInputs) (.str sampleInputs.signature)).issues ≠ [])) :=
  ⟨rfl, rfl, rfl, by decide,
   C7_amended sampleParseDate sampleNow "t" sampleVerifyBody
     (signedEvidence sampleInputs) (.str sampleInputs.signature)
     rfl rfl rfl (by decide)⟩

/-- Claim C8, counterexample to the conjunct "changing either input
changes the hash": no function from the (infinite) type of storage paths
into 64-character hex strings is injective, so there exist two distinct
storage paths whose `documentHash` (for the same `createdAt`) coincide —
SHA-256 has collisions by pigeonhole, even though none is feasibly
computable.  The universally quantified reading of the conjunct is
therefore false. -/
theorem C8_counterexample :
    ¬ (∀ s1 s2 createdAt : String, s1 ≠ s2 →
        documentHash s1 createdAt ≠ documentHash s2 createdAt) := by
  intro H
  obtain ⟨x, y, hxy, heq⟩ :=
    Finite.exists_ne_map_eq_of_infinite
      (fun s : String =>
        (⟨(documentHash s "").data, hashSHA256_data_length (s ++ "")⟩ :
          {l : List Char // l.length = 64}))
  have hdata : (documentHash x "").data = (documentHash y "").data :=
    congrArg Subtype.val heq
  exact H x y "" hxy (String.ext hdata)

/-- Claim C8, amended: `documentHash` is exactly the lowercase hex
SHA-256 of the concatenation `storagePath ++ createdAt` (definitional,
and checked against the specification's §8 concrete scenario), it is a
pure function — identical inputs reproduce the identical hash by
construction — and changing either input alone changes the *string that
is hashed*; the hash value itself then differs unless the two distinct
strings are a SHA-256 collision (which exist by pigeonhole but are
infeasible to produce). -/
theorem C8_amended (s c s2 c2 : String) (hs : s ≠ s2) (hc : c ≠ c2) :
    documentHash s c = bytesToHex (sha256 (strUtf8 (s ++ c))) ∧
    s ++ c ≠ s2 ++ c ∧
    s ++ c ≠ s ++ c2 ∧
    documentHash "documents/u1/a.pdf" "2025-01-01T00:00:00Z" =
      "400f2dd0a9ae1b0d1a53b7e120a3c897930043541f47138b8451799e89f517d8" := by
  refine ⟨rfl, ?_, ?_, by decide⟩
  · intro h
    apply hs
    have hd : (s ++ c).data = (s2 ++ c).data := by rw [h]
    rw [String.data_append, String.data_append] at hd
    exact String.ext (List.append_cancel_right hd)
  · intro h
    apply hc
    have hd : (s ++ c).data = (s ++ c2).data := by rw [h]
    rw [String.data_append, String.data_append] at hd
    exact String.ext (List.append_cancel_left hd)

theorem C8_amended_witness :
    ("documents/u1/a.pdf" : String) ≠ "documents/u1/b.pdf" ∧
    ("2025-01-01T00:00:00Z" : String) ≠ "2026-01-01T00:00:00Z" ∧
    (documentHash "documents/u1/a.pdf" "2025-01-01T00:00:00Z" =
        bytesToHex (sha256 (strUtf8 ("documents/u1/a.pdf" ++ "2025-01-01T00:00:00Z"))) ∧
     "documents/u1/a.pdf" ++ "2025-01-01T00:00:00Z" ≠
       "documents/u1/b.pdf" ++ "2025-01-01T00:00:00Z" ∧
     "documents/u1/a.pdf" ++ "2025-01-01T00:00:00Z" ≠
       "documents/u1/a.pdf" ++ "2026-01-01T00:00:00Z" ∧
     documentHash "documents/u1/a.pdf" "2025-01-01T00:00:00Z" =
       "400f2dd0a9ae1b0d1a53b7e120a3c897930043541f47138b8451799e89f517d8") :=
  ⟨by decide, by decide,
   C8_amended "documents/u1/a.pdf" "2025-01-01T00:00:00Z"
     "documents/u1/b.pdf" "2026-01-01T00:00:00Z" (by decide) (by decide)⟩
